import Mathlib

/-!
Verification of the video-to-landmark pipeline and biomechanical analysis
engine of the tennis AI coach backend (app.py).

The source's floating-point arithmetic is modelled over the exact reals:
`np.arctan2 y x` is the argument of the complex number `x + y*i`, and
Python's truncating `int()` conversion is `pyInt` below.  Landmarks,
frames and traces are modelled structurally; the external pose detector
and the video container are collaborators, so the endpoint model takes
their observable behaviour (opened flag, per-frame detection outcomes)
as input and reproduces the control flow of `analyze_video_endpoint`.
-/

namespace TennisCoach

/-- A single body landmark as produced per frame (app.py line 149):
a dict with x, y, z and visibility, modelled as exact reals. -/
structure Landmark where
  x : ℝ
  y : ℝ
  z : ℝ
  visibility : ℝ

/-- The default landmark used by the total indexing functions.  Every
access in the embedding is guarded exactly as in the source, so this
default is never observable. -/
def dland : Landmark := ⟨0, 0, 0, 0⟩

/-- The landmark list of one frame: empty when detection failed. -/
abbrev FrameLandmarks := List Landmark

/-- The ordered per-frame result list (`all_landmarks` in app.py). -/
abbrev LandmarkTrace := List FrameLandmarks

/-- `np.arctan2 y x`: the argument of the complex number `x + y*i`,
which lies in (-pi, pi] and is 0 at the origin, matching numpy. -/
noncomputable def atan2 (y x : ℝ) : ℝ := Complex.arg ⟨x, y⟩

/-- app.py lines 49-61, `calculate_angle(a, b, c)`: difference of the
two arctangents, converted to degrees, absolute value, folded into
[0, 180] by the `360 - angle` rule. -/
noncomputable def calculate_angle (a b c : ℝ × ℝ) : ℝ :=
  let radians := atan2 (c.2 - b.2) (c.1 - b.1) - atan2 (a.2 - b.2) (a.1 - b.1)
  let angle := |radians * 180 / Real.pi|
  if angle > 180 then 360 - angle else angle

/-- Python `int()` on a real: truncation toward zero. -/
noncomputable def pyInt (r : ℝ) : ℤ := if 0 ≤ r then ⌊r⌋ else ⌈r⌉

open Classical in
/-- The loop body of the elbow-angle scan (app.py lines 69-77): a frame
updates the running minimum only when it is non-empty and has more than
16 points; the angle at index 14 (elbow) is formed from indices 12
(shoulder) and 16 (wrist), x/y coordinates only. -/
noncomputable def elbowStep (m : ℝ) (f : FrameLandmarks) : ℝ :=
  if f ≠ [] ∧ 16 < f.length then
    let angle := calculate_angle
      ((f.getD 12 dland).x, (f.getD 12 dland).y)
      ((f.getD 14 dland).x, (f.getD 14 dland).y)
      ((f.getD 16 dland).x, (f.getD 16 dland).y)
    if angle < m then angle else m
  else m

/-- `min_elbow_angle` after the loop of app.py lines 68-77, starting
from the initial value 180. -/
noncomputable def min_elbow_angle (t : LandmarkTrace) : ℝ :=
  t.foldl elbowStep 180

/-- The bent-arm feedback string of app.py line 80, with the truncated
minimum angle interpolated. -/
def bentLine (n : ℤ) : String :=
  "Your arm is quite bent. The minimum elbow angle was " ++ toString n
    ++ "°. Try to keep the arm straighter for more power."

/-- The good-extension feedback string of app.py line 82. -/
def goodLine : String := "Good arm extension! Your elbow angle looks solid."

/-- The undetermined-elbow feedback string of app.py line 84. -/
def cdElbowLine : String :=
  "Could not determine elbow angle. Make sure your arm is visible."

/-- The head-movement warning string of app.py line 97. -/
def warnLine : String :=
  "You are moving your head vertically during the stroke. Try to keep your head still to improve balance and consistency."

/-- The head-stability praise string of app.py line 99. -/
def praiseLine : String :=
  "Excellent head stability! Keeping your head still is key."

/-- The undetermined-head feedback string of app.py line 101. -/
def cdHeadLine : String :=
  "Could not determine head movement. Ensure you are visible at the start and end of the clip."

/-- The elbow-angle feedback lines (app.py lines 79-84): the three-way
decision on the minimum elbow angle. -/
noncomputable def elbowFeedback (t : LandmarkTrace) : List String :=
  if min_elbow_angle t < 90 then [bentLine (pyInt (min_elbow_angle t))]
  else if min_elbow_angle t ≠ 180 then [goodLine]
  else [cdElbowLine]

/-- The nose vertical displacement between the first and last frame
(app.py lines 91-93): absolute difference of landmark 0's y. -/
noncomputable def noseMove (t : LandmarkTrace) : ℝ :=
  |((t.headD []).headD dland).y - ((t.getLastD []).headD dland).y|

open Classical in
/-- The head-movement feedback lines (app.py lines 88-101).  The outer
guard (line 88) requires a non-empty trace with more than one frame and
truthy (non-empty) first and last frames; the inner guard (line 90)
re-checks non-emptiness of the endpoints. -/
noncomputable def headFeedback (t : LandmarkTrace) : List String :=
  if t ≠ [] ∧ 1 < t.length ∧ t.headD [] ≠ [] ∧ t.getLastD [] ≠ [] then
    if 0 < (t.headD []).length ∧ 0 < (t.getLastD []).length then
      if 0.05 < noseMove t then [warnLine] else [praiseLine]
    else [cdHeadLine]
  else []

/-- app.py lines 63-104, `analyze_landmarks`: the elbow lines followed
by the head lines, in that order. -/
noncomputable def analyze_landmarks (t : LandmarkTrace) : List String :=
  elbowFeedback t ++ headFeedback t

/-- app.py lines 125-128: frame rate from container metadata with the
fallback to 30 when it is reported as zero. -/
noncomputable def effective_fps (fps : ℝ) : ℝ := if fps = 0 then 30 else fps

/-- app.py line 142: the manually computed per-frame timestamp,
`int((frame_number / fps) * 1000)`. -/
noncomputable def frame_timestamp_ms (frame_number : ℕ) (fps : ℝ) : ℤ :=
  pyInt (((frame_number : ℝ) / fps) * 1000)

/-- The HTTP-level outcome of the endpoint: either the success JSON
(landmarks and feedback) or the error JSON with its status code. -/
inductive Response where
  | ok (landmarks : LandmarkTrace) (feedback : List String)
  | err (msg : String) (code : ℕ)

/-- Observable behaviour of the two external collaborators for one
video: whether `cv2.VideoCapture` opened the source (`cap.isOpened()`;
the constructor itself never raises), the advisory frame rate, and the
outcome of each per-frame detector call in order: `Except.error e`
models the call raising exception `e`, `Except.ok persons` models it
returning the given per-person landmark lists. -/
structure VideoSource where
  opened : Bool
  fps : ℝ
  detections : List (Except String (List FrameLandmarks))

/-- The frame loop of app.py lines 133-152: frames are processed in
order; a raised detector exception propagates and discards the trace;
on success the first detected person's landmarks (or an empty list)
are appended. -/
def runFrames : List (Except String (List FrameLandmarks)) → Except String LandmarkTrace
  | [] => Except.ok []
  | Except.error e :: _ => Except.error e
  | Except.ok persons :: rest =>
    match runFrames rest with
    | Except.error e => Except.error e
    | Except.ok t => Except.ok (persons.headD [] :: t)

/-- The exit state of one request: the response plus whether
`cap.release()` (app.py line 154) ran and whether the uploaded file was
removed (the `finally` block, lines 168-172). -/
structure RunResult where
  response : Response
  capReleased : Bool
  fileDeleted : Bool

/-- app.py lines 123-172, the body of `analyze_video_endpoint` from the
`try` onward.  When the source is not opened the while loop body never
runs (`cap.isOpened()` is false) and an empty trace is analyzed.  An
exception raised by a detector call jumps to the `except` handler
(500 response) without passing through `cap.release()`, which sits
inside the `try` after the loop; the `finally` block always deletes the
uploaded file. -/
noncomputable def analyze_video_endpoint (src : VideoSource) : RunResult :=
  match runFrames (if src.opened then src.detections else []) with
  | Except.error e => ⟨Response.err e 500, false, true⟩
  | Except.ok trace => ⟨Response.ok trace (analyze_landmarks trace), true, true⟩

/-- Shorthand for a landmark with the given x and y (z and visibility
are irrelevant to both metrics). -/
def L (x y : ℝ) : Landmark := ⟨x, y, 0, 0⟩

/-- A 17-point frame whose shoulder (index 12), elbow (index 14) and
wrist (index 16) are collinear with the elbow in the middle: the elbow
angle computes to exactly 180. -/
def straightFrame : FrameLandmarks :=
  [L 0 0, L 0 0, L 0 0, L 0 0, L 0 0, L 0 0, L 0 0, L 0 0, L 0 0, L 0 0,
   L 0 0, L 0 0, L 0 0, L 0 0, L 1 0, L 0 0, L 2 0]

/-- A 17-point frame whose wrist and shoulder lie on the same ray from
the elbow: the elbow angle computes to exactly 0. -/
def bentFrame : FrameLandmarks :=
  [L 0 0, L 0 0, L 0 0, L 0 0, L 0 0, L 0 0, L 0 0, L 0 0, L 0 0, L 0 0,
   L 0 0, L 0 0, L 2 0, L 0 0, L 0 0, L 0 0, L 3 0]

/-! ### Basic facts about atan2 and calculate_angle -/

lemma atan2_zero_nonneg {x : ℝ} (hx : 0 ≤ x) : atan2 0 x = 0 := by
  show Complex.arg ⟨x, 0⟩ = 0
  rw [← Complex.ofReal_def]
  exact Complex.arg_ofReal_of_nonneg hx

lemma atan2_zero_neg {x : ℝ} (hx : x < 0) : atan2 0 x = Real.pi := by
  show Complex.arg ⟨x, 0⟩ = Real.pi
  rw [← Complex.ofReal_def]
  exact Complex.arg_ofReal_of_neg hx

lemma atan2_le_pi (y x : ℝ) : atan2 y x ≤ Real.pi := Complex.arg_le_pi _

lemma neg_pi_lt_atan2 (y x : ℝ) : -Real.pi < atan2 y x := Complex.neg_pi_lt_arg _

/-- `calculate_angle` with its two let-bindings unfolded. -/
lemma calculate_angle_eq (a b c : ℝ × ℝ) :
    calculate_angle a b c =
      if |(atan2 (c.2 - b.2) (c.1 - b.1) - atan2 (a.2 - b.2) (a.1 - b.1)) * 180 / Real.pi| > 180
      then 360 - |(atan2 (c.2 - b.2) (c.1 - b.1) - atan2 (a.2 - b.2) (a.1 - b.1)) * 180 / Real.pi|
      else |(atan2 (c.2 - b.2) (c.1 - b.1) - atan2 (a.2 - b.2) (a.1 - b.1)) * 180 / Real.pi| :=
  rfl

/-- The degree-folding step keeps any difference of two arguments
inside [0, 180]. -/
lemma angle_fold_bounds (r : ℝ) (hr : |r| < 2 * Real.pi) :
    0 ≤ (if |r * 180 / Real.pi| > 180 then 360 - |r * 180 / Real.pi| else |r * 180 / Real.pi|) ∧
      (if |r * 180 / Real.pi| > 180 then 360 - |r * 180 / Real.pi| else |r * 180 / Real.pi|) ≤ 180 := by
  have hpi := Real.pi_pos
  have habs : |r * 180 / Real.pi| = |r| * 180 / Real.pi := by
    rw [abs_div, abs_mul, abs_of_pos hpi]
    norm_num
  have hlt : |r * 180 / Real.pi| < 360 := by
    rw [habs, div_lt_iff₀ hpi]
    nlinarith [abs_nonneg r]
  by_cases hc : |r * 180 / Real.pi| > 180
  · rw [if_pos hc]
    constructor <;> linarith
  · rw [if_neg hc]
    exact ⟨abs_nonneg _, le_of_not_lt hc⟩

/-- Claim C6: for all points A, B, C, `calculate_angle A B C` equals
`calculate_angle C B A`, and the returned value always lies in the
interval [0, 180]. -/
theorem calculate_angle_symm_range (a b c : ℝ × ℝ) :
    calculate_angle a b c = calculate_angle c b a ∧
      0 ≤ calculate_angle a b c ∧ calculate_angle a b c ≤ 180 := by
  have hswap : atan2 (a.2 - b.2) (a.1 - b.1) - atan2 (c.2 - b.2) (c.1 - b.1)
      = -(atan2 (c.2 - b.2) (c.1 - b.1) - atan2 (a.2 - b.2) (a.1 - b.1)) := by
    ring
  have hbound : |atan2 (c.2 - b.2) (c.1 - b.1) - atan2 (a.2 - b.2) (a.1 - b.1)|
      < 2 * Real.pi := by
    have h1 := atan2_le_pi (c.2 - b.2) (c.1 - b.1)
    have h2 := neg_pi_lt_atan2 (c.2 - b.2) (c.1 - b.1)
    have h3 := atan2_le_pi (a.2 - b.2) (a.1 - b.1)
    have h4 := neg_pi_lt_atan2 (a.2 - b.2) (a.1 - b.1)
    rw [abs_lt]
    constructor <;> linarith
  refine ⟨?_, ?_⟩
  · rw [calculate_angle_eq a b c, calculate_angle_eq c b a, hswap, neg_mul, neg_div, abs_neg]
  · rw [calculate_angle_eq a b c]
    exact angle_fold_bounds _ hbound

/-- A collinear shoulder-elbow-wrist configuration with the elbow
between the two others: the computed angle is exactly 180. -/
lemma calculate_angle_straight : calculate_angle (0, 0) (1, 0) (2, 0) = 180 := by
  have hpne := Real.pi_ne_zero
  have e1 : atan2 (0 : ℝ) 1 = 0 := atan2_zero_nonneg (by norm_num)
  have e2 : atan2 (0 : ℝ) (-1) = Real.pi := atan2_zero_neg (by norm_num)
  have e3 : ((0 : ℝ) - Real.pi) * 180 / Real.pi = -180 := by
    field_simp
    ring
  rw [calculate_angle_eq]
  norm_num
  rw [e1, e2, e3]
  rw [abs_neg, abs_of_nonneg (by norm_num : (0:ℝ) ≤ 180)]
  rw [if_neg (by norm_num)]

/-- A degenerate configuration with wrist and shoulder on the same ray
from the elbow: the computed angle is exactly 0. -/
lemma calculate_angle_collinear_zero : calculate_angle (2, 0) (0, 0) (3, 0) = 0 := by
  have e1 : atan2 (0 : ℝ) 3 = 0 := atan2_zero_nonneg (by norm_num)
  have e2 : atan2 (0 : ℝ) 2 = 0 := atan2_zero_nonneg (by norm_num)
  rw [calculate_angle_eq]
  norm_num
  rw [e1, e2]
  norm_num

/-! ### The elbow-angle metric -/

/-- Frames that are empty or have at most 16 points never change the
running minimum. -/
lemma foldl_elbowStep_id (t : LandmarkTrace) :
    ∀ m : ℝ, (∀ f ∈ t, f = [] ∨ f.length ≤ 16) → t.foldl elbowStep m = m := by
  induction t with
  | nil => intro m _; rfl
  | cons f rest ih =>
      intro m h
      have hstep : elbowStep m f = m := by
        rw [elbowStep, if_neg]
        rcases h f (List.mem_cons_self f rest) with hf | hf
        · intro hc
          exact hc.1 hf
        · intro hc
          exact absurd hc.2 (not_lt.mpr hf)
      rw [List.foldl_cons, hstep]
      exact ih m (fun g hg => h g (List.mem_cons_of_mem _ hg))

lemma min_elbow_angle_of_no_qual (t : LandmarkTrace)
    (h : ∀ f ∈ t, f = [] ∨ f.length ≤ 16) : min_elbow_angle t = 180 :=
  foldl_elbowStep_id t 180 h

lemma elbowFeedback_of_min_eq_180 {t : LandmarkTrace}
    (h : min_elbow_angle t = 180) : elbowFeedback t = [cdElbowLine] := by
  rw [elbowFeedback, h, if_neg (by norm_num), if_neg (by simp)]

lemma elbowFeedback_of_min_lt_90 {t : LandmarkTrace}
    (h : min_elbow_angle t < 90) :
    elbowFeedback t = [bentLine (pyInt (min_elbow_angle t))] := by
  rw [elbowFeedback, if_pos h]

/-- The interpolated bent-arm line can never coincide with the
undetermined-elbow line: the lengths differ for every integer. -/
lemma bentLine_ne_cdElbowLine (n : ℤ) : bentLine n ≠ cdElbowLine := by
  intro h
  have h2 := congrArg String.length h
  rw [bentLine, String.length_append, String.length_append] at h2
  have e1 : ("Your arm is quite bent. The minimum elbow angle was ").length = 52 := rfl
  have e2 : ("°. Try to keep the arm straighter for more power.").length = 49 := rfl
  have e3 : cdElbowLine.length = 63 := rfl
  rw [e1, e2, e3] at h2
  omega

lemma min_elbow_angle_straight : min_elbow_angle [straightFrame] = 180 := by
  have hq : straightFrame ≠ [] ∧ 16 < straightFrame.length := by
    constructor
    · simp [straightFrame]
    · norm_num [straightFrame]
  have h : min_elbow_angle [straightFrame] = elbowStep 180 straightFrame := rfl
  rw [h, elbowStep, if_pos hq]
  show (if calculate_angle (0, 0) (1, 0) (2, 0) < 180
      then calculate_angle (0, 0) (1, 0) (2, 0) else 180) = 180
  rw [calculate_angle_straight, if_neg (lt_irrefl 180)]

lemma min_elbow_angle_bent : min_elbow_angle [bentFrame] = 0 := by
  have hq : bentFrame ≠ [] ∧ 16 < bentFrame.length := by
    constructor
    · simp [bentFrame]
    · norm_num [bentFrame]
  have h : min_elbow_angle [bentFrame] = elbowStep 180 bentFrame := rfl
  rw [h, elbowStep, if_pos hq]
  show (if calculate_angle (2, 0) (0, 0) (3, 0) < 180
      then calculate_angle (2, 0) (0, 0) (3, 0) else 180) = 0
  rw [calculate_angle_collinear_zero, if_pos (by norm_num)]

/-- Claim C4 (amended): `analyze_landmarks` emits the undetermined-elbow
line exactly when the tracked minimum is still 180 — that is, when no
qualifying frame exists or every qualifying frame computes an angle of
exactly 180; in particular a trace with no qualifying frame (zero
frames, or all frames lacking 17+ points) always yields that line. -/
theorem elbow_cd_iff_min_angle_180 (t : LandmarkTrace) :
    ((∀ f ∈ t, f = [] ∨ f.length ≤ 16) → min_elbow_angle t = 180) ∧
      (elbowFeedback t = [cdElbowLine] ↔ min_elbow_angle t = 180) := by
  refine ⟨min_elbow_angle_of_no_qual t, ?_, elbowFeedback_of_min_eq_180⟩
  intro h
  by_contra hne
  by_cases h90 : min_elbow_angle t < 90
  · rw [elbowFeedback_of_min_lt_90 h90] at h
    simp only [List.cons.injEq, and_true] at h
    exact bentLine_ne_cdElbowLine _ h
  · rw [elbowFeedback, if_neg h90, if_pos hne] at h
    simp [goodLine, cdElbowLine] at h

/-- Witness for C4: the one-frame trace with an empty frame has no
qualifying frame and gets the undetermined-elbow line. -/
theorem elbow_cd_iff_min_angle_180_witness :
    elbowFeedback [([] : FrameLandmarks)] = [cdElbowLine] :=
  (elbow_cd_iff_min_angle_180 [[]]).2.mpr
    ((elbow_cd_iff_min_angle_180 [[]]).1
      (by intro f hf; simp only [List.mem_singleton] at hf; exact Or.inl hf))

/-- Counterexample for C4 as stated: `straightFrame` is a qualifying
frame (non-empty, 17 points), yet the trace consisting of it alone
still gets the undetermined-elbow line, not a bent-arm or
good-extension line. -/
theorem elbow_cd_with_qualifying_frame_cex :
    straightFrame ≠ [] ∧ 16 < straightFrame.length ∧
      analyze_landmarks [straightFrame] = [cdElbowLine] := by
  refine ⟨by simp [straightFrame], by norm_num [straightFrame], ?_⟩
  rw [analyze_landmarks, elbowFeedback_of_min_eq_180 min_elbow_angle_straight]
  rw [headFeedback, if_neg]
  · simp
  · intro hc
    have h1 := hc.2.1
    simp at h1

/-- Claim C8: whenever the minimum elbow angle is below 90, the output
of `analyze_landmarks` contains the bent-arm line carrying the
integer-truncated minimum angle. -/
theorem bent_line_when_min_lt_90 (t : LandmarkTrace)
    (h : min_elbow_angle t < 90) :
    bentLine (pyInt (min_elbow_angle t)) ∈ analyze_landmarks t := by
  rw [analyze_landmarks, elbowFeedback_of_min_lt_90 h]
  exact List.mem_append_left _ (List.mem_singleton_self _)

/-- Witness for C8: the one-frame trace around `bentFrame` has minimum
angle 0 < 90 and its output contains the corresponding bent-arm line. -/
theorem bent_line_when_min_lt_90_witness :
    min_elbow_angle [bentFrame] < 90 ∧
      bentLine (pyInt (min_elbow_angle [bentFrame])) ∈ analyze_landmarks [bentFrame] := by
  constructor
  · rw [min_elbow_angle_bent]
    norm_num
  · exact bent_line_when_min_lt_90 [bentFrame] (by rw [min_elbow_angle_bent]; norm_num)

/-! ### The head-stability metric -/

/-- Claim C1 (code evaluation): the head metric only ever emits
nothing, the warning line, or the praise line — the undetermined-head
line of app.py line 101 is unreachable, because the outer guard on
line 88 already requires truthy (non-empty) first and last frames.  In
particular the 2-frame trace whose first frame is empty yields no head
line at all, only the elbow line. -/
theorem head_cd_line_unreachable :
    (∀ t : LandmarkTrace,
        headFeedback t = [] ∨ headFeedback t = [warnLine] ∨ headFeedback t = [praiseLine]) ∧
      analyze_landmarks [[], [L 0 0]] = [cdElbowLine] := by
  constructor
  · intro t
    by_cases h : t ≠ [] ∧ 1 < t.length ∧ t.headD [] ≠ [] ∧ t.getLastD [] ≠ []
    · rw [headFeedback, if_pos h,
        if_pos ⟨List.length_pos.mpr h.2.2.1, List.length_pos.mpr h.2.2.2⟩]
      by_cases hm : (0.05 : ℝ) < noseMove t
      · right
        left
        rw [if_pos hm]
      · right
        right
        rw [if_neg hm]
    · left
      rw [headFeedback, if_neg h]
  · have hmin : min_elbow_angle [[], [L 0 0]] = 180 := by
      apply min_elbow_angle_of_no_qual
      intro f hf
      simp only [List.mem_cons, List.not_mem_nil, or_false] at hf
      rcases hf with rfl | rfl
      · exact Or.inl rfl
      · exact Or.inr (by norm_num)
    rw [analyze_landmarks, elbowFeedback_of_min_eq_180 hmin, headFeedback, if_neg,
      List.append_nil]
    intro hc
    exact hc.2.2.1 rfl

/-- Claim C7: with at least two frames and non-empty endpoint frames,
the warning line is emitted iff the nose displacement exceeds 0.05;
otherwise (including a displacement of exactly 0.05) the praise line
is emitted. -/
theorem head_warn_iff_threshold (t : LandmarkTrace) (h1 : 1 < t.length)
    (h2 : t.headD [] ≠ []) (h3 : t.getLastD [] ≠ []) :
    (headFeedback t = [warnLine] ↔ 0.05 < noseMove t) ∧
      (headFeedback t = [praiseLine] ↔ noseMove t ≤ 0.05) := by
  have ht : t ≠ [] := by
    intro h
    rw [h] at h1
    simp at h1
  rw [headFeedback, if_pos ⟨ht, h1, h2, h3⟩,
    if_pos ⟨List.length_pos.mpr h2, List.length_pos.mpr h3⟩]
  by_cases hm : (0.05 : ℝ) < noseMove t
  · rw [if_pos hm]
    refine ⟨iff_of_true rfl hm, iff_of_false ?_ (not_le.mpr hm)⟩
    intro hc
    simp only [List.cons.injEq, and_true] at hc
    simp [warnLine, praiseLine] at hc
  · rw [if_neg hm]
    refine ⟨iff_of_false ?_ hm, iff_of_true rfl (not_lt.mp hm)⟩
    intro hc
    simp only [List.cons.injEq, and_true] at hc
    simp [warnLine, praiseLine] at hc

/-- Witness for C7: two one-landmark frames whose nose y moves by 1/5
(> 0.05) produce the warning line. -/
theorem head_warn_iff_threshold_witness :
    1 < ([[L 0 0], [L 0 (1/5)]] : LandmarkTrace).length ∧
      ([[L 0 0], [L 0 (1/5)]] : LandmarkTrace).headD [] ≠ [] ∧
      ([[L 0 0], [L 0 (1/5)]] : LandmarkTrace).getLastD [] ≠ [] ∧
      headFeedback [[L 0 0], [L 0 (1/5)]] = [warnLine] := by
  have h1 : 1 < ([[L 0 0], [L 0 (1/5)]] : LandmarkTrace).length := by norm_num
  have h2 : ([[L 0 0], [L 0 (1/5)]] : LandmarkTrace).headD [] ≠ [] := by simp
  have h3 : ([[L 0 0], [L 0 (1/5)]] : LandmarkTrace).getLastD [] ≠ [] := by simp
  refine ⟨h1, h2, h3, ?_⟩
  apply (head_warn_iff_threshold _ h1 h2 h3).1.mpr
  have hnm : noseMove [[L 0 0], [L 0 (1/5)]] = 1/5 := by
    show |(0 : ℝ) - 1/5| = 1/5
    rw [zero_sub, abs_neg, abs_of_nonneg (by norm_num : (0:ℝ) ≤ 1/5)]
  rw [hnm]
  norm_num

/-- Claim C10: a frame with between 1 and 16 landmarks is ignored by
the elbow metric (the tracked minimum stays 180, so the
undetermined-elbow line is emitted), yet the same frame counts as a
non-empty endpoint for the head metric, which reads its index 0 and
emits a head line: the two metrics use different non-emptiness
thresholds. -/
theorem partial_frame_thresholds (f : FrameLandmarks) (hne : f ≠ [])
    (hlen : f.length ≤ 16) :
    min_elbow_angle [f, f] = 180 ∧
      analyze_landmarks [f, f] = [cdElbowLine, praiseLine] := by
  have hmin : min_elbow_angle [f, f] = 180 := by
    apply min_elbow_angle_of_no_qual
    intro g hg
    simp only [List.mem_cons, List.not_mem_nil, or_false, or_self] at hg
    exact Or.inr (hg ▸ hlen)
  refine ⟨hmin, ?_⟩
  rw [analyze_landmarks, elbowFeedback_of_min_eq_180 hmin]
  have hhead : ([f, f] : LandmarkTrace).headD [] ≠ [] := hne
  have hlast : ([f, f] : LandmarkTrace).getLastD [] ≠ [] := hne
  rw [headFeedback, if_pos ⟨by simp, by norm_num, hhead, hlast⟩,
    if_pos ⟨List.length_pos.mpr hhead, List.length_pos.mpr hlast⟩]
  have hnm : noseMove [f, f] = 0 := by
    show |(f.headD dland).y - (f.headD dland).y| = 0
    rw [sub_self, abs_zero]
  rw [if_neg (by rw [hnm]; norm_num)]
  rfl

/-- Witness for C10: the one-landmark frame. -/
theorem partial_frame_thresholds_witness :
    ([L 0 0] : FrameLandmarks) ≠ [] ∧ ([L 0 0] : FrameLandmarks).length ≤ 16 ∧
      analyze_landmarks [[L 0 0], [L 0 0]] = [cdElbowLine, praiseLine] := by
  have hne : ([L 0 0] : FrameLandmarks) ≠ [] := by simp
  have hlen : ([L 0 0] : FrameLandmarks).length ≤ 16 := by norm_num
  exact ⟨hne, hlen, (partial_frame_thresholds [L 0 0] hne hlen).2⟩

/-! ### Timestamps and frame rate -/

/-- Claim C3 (amended): for every fps > 0 the timestamp of frame i is
`⌊i / fps * 1000⌋` milliseconds, and the timestamps are strictly
increasing across successive frames provided fps ≤ 1000 (at more than
1000 fps consecutive frames can share a millisecond timestamp). -/
theorem timestamp_floor_and_mono (fps : ℝ) (i : ℕ) (hf : 0 < fps) :
    frame_timestamp_ms i fps = ⌊((i : ℝ) / fps) * 1000⌋ ∧
      (fps ≤ 1000 → frame_timestamp_ms i fps < frame_timestamp_ms (i + 1) fps) := by
  have hne : fps ≠ 0 := ne_of_gt hf
  have heq : ∀ j : ℕ, frame_timestamp_ms j fps = ⌊((j : ℝ) / fps) * 1000⌋ := by
    intro j
    rw [frame_timestamp_ms, pyInt, if_pos (by positivity)]
  refine ⟨heq i, ?_⟩
  intro h1000
  rw [heq i, heq (i + 1)]
  have hexp : (((i : ℝ) + 1) / fps) * 1000 = ((i : ℝ) / fps) * 1000 + 1000 / fps := by
    field_simp
    ring
  have hone : (1 : ℝ) ≤ 1000 / fps := (one_le_div hf).mpr h1000
  have hstep : ((i : ℝ) / fps) * 1000 + 1 ≤ (((i + 1 : ℕ) : ℝ) / fps) * 1000 := by
    push_cast
    rw [hexp]
    linarith
  rw [← Int.add_one_le_iff, Int.le_floor]
  push_cast
  have hfl := Int.floor_le (((i : ℝ) / fps) * 1000)
  push_cast at hstep
  linarith

/-- Counterexample for C3 as stated: at 2000 fps (> 0) frames 0 and 1
both get timestamp 0, so the timestamps are not strictly increasing
for every positive fps. -/
theorem timestamp_not_strictly_increasing_cex :
    (0 : ℝ) < 2000 ∧ frame_timestamp_ms 0 2000 = 0 ∧ frame_timestamp_ms 1 2000 = 0 := by
  refine ⟨by norm_num, ?_, ?_⟩
  · rw [frame_timestamp_ms, pyInt, if_pos (by positivity)]
    norm_num
  · rw [frame_timestamp_ms, pyInt, if_pos (by positivity)]
    have h : (((1 : ℕ) : ℝ) / 2000) * 1000 = 1 / 2 := by norm_num
    rw [h]
    have hfl : ⌊(1 / 2 : ℝ)⌋ = 0 := by
      apply Int.floor_eq_iff.mpr
      constructor <;> norm_num
    rw [hfl]

/-- Witness for C3: at 30 fps the timestamps of frames 0 and 1 are
strictly increasing. -/
theorem timestamp_floor_and_mono_witness :
    (0 : ℝ) < 30 ∧ (30 : ℝ) ≤ 1000 ∧ frame_timestamp_ms 0 30 < frame_timestamp_ms 1 30 :=
  ⟨by norm_num, by norm_num,
    (timestamp_floor_and_mono 30 0 (by norm_num)).2 (by norm_num)⟩

/-- Claim C5: a container frame rate reported as 0 results in an
effective frame rate of exactly 30, which is nonzero, and the
timestamp of every frame is then computed with denominator 30 (no
division by zero arises). -/
theorem fps_zero_fallback :
    effective_fps 0 = 30 ∧ effective_fps 0 ≠ 0 ∧
      ∀ i : ℕ, frame_timestamp_ms i (effective_fps 0) = ⌊((i : ℝ) / 30) * 1000⌋ := by
  have h : effective_fps 0 = 30 := by rw [effective_fps, if_pos rfl]
  refine ⟨h, by rw [h]; norm_num, fun i => ?_⟩
  rw [h, frame_timestamp_ms, pyInt, if_pos (by positivity)]

/-! ### The endpoint pipeline -/

lemma analyze_landmarks_nil : analyze_landmarks [] = [cdElbowLine] := by
  have hmin : min_elbow_angle ([] : LandmarkTrace) = 180 := rfl
  rw [analyze_landmarks, elbowFeedback_of_min_eq_180 hmin, headFeedback,
    if_neg (fun hc => hc.1 rfl), List.append_nil]

/-- Claim C2 (amended): an unopenable source does not abort the
pipeline and is not surfaced as an error: `cap.isOpened()` is false,
the frame loop never runs, the empty trace is analyzed, and a
successful response carrying the undetermined-elbow feedback line is
returned. -/
theorem unopened_source_returns_ok (src : VideoSource) (h : src.opened = false) :
    (analyze_video_endpoint src).response = Response.ok [] [cdElbowLine] := by
  have hrun : analyze_video_endpoint src
      = ⟨Response.ok [] (analyze_landmarks []), true, true⟩ := by
    rw [analyze_video_endpoint, h]
    rfl
  rw [hrun, analyze_landmarks_nil]

/-- Witness for C2: a concrete unopened source (even one with pending
detector outcomes, which are never consulted). -/
theorem unopened_source_returns_ok_witness :
    (VideoSource.mk false 0 [Except.ok [[L 0 0]]]).opened = false ∧
      (analyze_video_endpoint ⟨false, 0, [Except.ok [[L 0 0]]]⟩).response
        = Response.ok [] [cdElbowLine] :=
  ⟨rfl, unopened_source_returns_ok _ rfl⟩

/-- Counterexample for C2 as stated: for the unopenable source the
endpoint returns a successful feedback report, not a 500-equivalent
error. -/
theorem unopened_source_ok_response_cex :
    (analyze_video_endpoint ⟨false, 0, []⟩).response = Response.ok [] [cdElbowLine] := by
  have h : analyze_video_endpoint ⟨false, 0, []⟩
      = ⟨Response.ok [] (analyze_landmarks []), true, true⟩ := rfl
  rw [h, analyze_landmarks_nil]

/-- Claim C9 (amended): the uploaded temporary file is deleted on every
exit path, but the capture is released exactly on the paths where no
exception interrupts the frame loop: a raised detector call skips
`cap.release()`, which sits inside the `try` block. -/
theorem release_and_cleanup_paths (src : VideoSource) :
    (analyze_video_endpoint src).fileDeleted = true ∧
      ((analyze_video_endpoint src).capReleased = false ↔
        ∃ e, runFrames (if src.opened then src.detections else []) = Except.error e) := by
  cases hr : runFrames (if src.opened then src.detections else []) with
  | error e =>
      rw [analyze_video_endpoint, hr]
      exact ⟨rfl, iff_of_true rfl ⟨e, rfl⟩⟩
  | ok tr =>
      rw [analyze_video_endpoint, hr]
      refine ⟨rfl, iff_of_false (by simp) ?_⟩
      rintro ⟨e, he⟩
      exact Except.noConfusion he

/-- Counterexample for C9 as stated: when the first detector call
raises, the capture is never released (only the temporary file is
deleted, and the caller sees the 500 error). -/
theorem cap_not_released_on_detector_error_cex :
    (analyze_video_endpoint ⟨true, 30, [Except.error "detector failure"]⟩).capReleased = false ∧
      (analyze_video_endpoint ⟨true, 30, [Except.error "detector failure"]⟩).fileDeleted = true ∧
      (analyze_video_endpoint ⟨true, 30, [Except.error "detector failure"]⟩).response
        = Response.err "detector failure" 500 :=
  ⟨rfl, rfl, rfl⟩

end TennisCoach
